import Mathlib

/-!
Shallow embedding of the clubhouse-client repository (src/clubhouse/__init__.py
and src/clubhouse/api.py): a thin HTTP client for the Clubhouse REST API.
Python values are modelled by `PyObj`, the HTTP transport by a function from
requests to responses, and each `_request` variant by an explicit function
returning the dispatched requests, the log entries and the result.
-/

namespace Clubhouse

/-- A Python value as used by the client: JSON-shaped data plus `pyobject`
for Python objects that are not JSON serializable (e.g. a set or a
`PreparedRequest`). -/
inductive PyObj where
  | null : PyObj
  | bool (b : Bool) : PyObj
  | num (n : Int) : PyObj
  | str (s : String) : PyObj
  | arr (elems : List PyObj) : PyObj
  | obj (entries : List (String × PyObj)) : PyObj
  | pyobject (objRepr : String) : PyObj

/-- Errors a call can raise: Python exceptions that the client code can hit. -/
inductive PyErr where
  | indexError : PyErr
  | attributeError (attr : String) : PyErr
  | typeError (msg : String) : PyErr
  | keyError (key : String) : PyErr
  | jsonDecodeError : PyErr
  | httpError (status : Nat) (text : String) : PyErr
  | fuelExhausted : PyErr

/-- Escape of one character as performed by `json.dumps` for the characters
the client can send. -/
def escChar (c : Char) : String :=
  if c = '"' then "\\\""
  else if c = '\\' then "\\\\"
  else if c = '\n' then "\\n"
  else if c = '\t' then "\\t"
  else if c = '\r' then "\\r"
  else String.singleton c

/-- String escaping as performed by `json.dumps`. -/
def jsonEscape (s : String) : String :=
  s.data.foldl (fun acc c => acc ++ escChar c) ""

mutual

/-- `json.dumps`: serialize a Python value to JSON text (default separators),
failing with a `TypeError` on values that are not JSON serializable. -/
def jsonDumps : PyObj → Except PyErr String
  | PyObj.null => Except.ok "null"
  | PyObj.bool true => Except.ok "true"
  | PyObj.bool false => Except.ok "false"
  | PyObj.num n => Except.ok (toString n)
  | PyObj.str s => Except.ok ("\"" ++ jsonEscape s ++ "\"")
  | PyObj.arr l =>
      match dumpsList l with
      | Except.ok parts => Except.ok ("[" ++ String.intercalate ", " parts ++ "]")
      | Except.error e => Except.error e
  | PyObj.obj l =>
      match dumpsEntries l with
      | Except.ok parts =>
          Except.ok ("\x7b" ++ String.intercalate ", " parts ++ "\x7d")
      | Except.error e => Except.error e
  | PyObj.pyobject r =>
      Except.error (PyErr.typeError ("Object of type " ++ r ++ " is not JSON serializable"))

/-- Serialization of the elements of a JSON array. -/
def dumpsList : List PyObj → Except PyErr (List String)
  | [] => Except.ok []
  | v :: vs =>
      match jsonDumps v, dumpsList vs with
      | Except.ok s, Except.ok rest => Except.ok (s :: rest)
      | Except.error e, _ => Except.error e
      | _, Except.error e => Except.error e

/-- Serialization of the entries of a JSON object. -/
def dumpsEntries : List (String × PyObj) → Except PyErr (List String)
  | [] => Except.ok []
  | (k, v) :: vs =>
      match jsonDumps v, dumpsEntries vs with
      | Except.ok s, Except.ok rest =>
          Except.ok (("\"" ++ jsonEscape k ++ "\": " ++ s) :: rest)
      | Except.error e, _ => Except.error e
      | _, Except.error e => Except.error e

end

/-! ### String helpers mirroring the Python functions used by the client -/

/-- Python `s.startswith(p)`. -/
def strStartsWith (s p : String) : Bool := p.data.isPrefixOf s.data

/-- Python `s.endswith(p)`. -/
def strEndsWith (s p : String) : Bool := p.data.isSuffixOf s.data

/-- Python `s.strip("/")`: remove all leading and trailing slash characters. -/
def stripSlashes (s : String) : String :=
  String.mk (((s.data.dropWhile (fun c => c = '/')).reverse.dropWhile
    (fun c => c = '/')).reverse)

/-- `str(s)` for the Python values the client passes as path segments. -/
def pyStr : PyObj → String
  | PyObj.null => "None"
  | PyObj.bool true => "True"
  | PyObj.bool false => "False"
  | PyObj.num n => toString n
  | PyObj.str s => s
  | PyObj.arr _ => "[...]"
  | PyObj.obj _ => "\x7b...\x7d"
  | PyObj.pyobject r => r

/-- One step of `os.path.join` on POSIX: a component starting with a slash
resets the path; otherwise it is appended, inserting a slash unless the
accumulated path is empty or already ends with one. -/
def joinOne (acc c : String) : String :=
  if strStartsWith c "/" then c
  else if acc = "" ∨ strEndsWith acc "/" then acc ++ c
  else acc ++ "/" ++ c

/-- `os.path.join(base, *comps)` on POSIX. -/
def pathJoin (base : String) (comps : List String) : String :=
  comps.foldl joinOne base

/-- The characters of `l` strictly before the first occurrence of `c`
(`url.split(c, 1)[0]` when `c` occurs). -/
def beforeChar (c : Char) (l : List Char) : List Char :=
  l.takeWhile (fun x => x ≠ c)

/-- The characters of `l` strictly after the first occurrence of `c`
(empty when `c` does not occur). -/
def afterChar (c : Char) : List Char → List Char
  | [] => []
  | x :: xs => if x = c then xs else afterChar c xs

/-- `urllib.parse.urlparse(url)[4]`, the query component: `urlparse` first
splits off the fragment at the first `#`, then the query after the first `?`
of what remains. -/
def urlQuery (url : String) : String :=
  String.mk (afterChar '?' (beforeChar '#' url.data))

/-! ### Data model: client, transport requests and responses -/

/-- `ClubhouseClient.__init__`: stores the API key and the (possibly empty)
list of ignored status codes (`ignored_status_codes or []`). -/
structure Client where
  api_key : String
  ignored_status_codes : List Nat

/-- The argument record handed to `requests.request`: method, full URL,
explicit headers, explicit `data` payload (serialized body) when present,
and the remaining keyword arguments passed through. -/
structure HttpRequest where
  method : String
  url : String
  headers : List (String × String)
  data : Option String
  kwargs : List (String × PyObj)

/-- An HTTP response as the `requests` library presents it to this client:
status code, body text, the parsed JSON body (`none` when `.json()` would
fail to decode), and `.next` — the next request of a redirect chain, which
is `none` for any response that is not a redirect result. -/
structure Response where
  status_code : Nat
  text : String
  jsonBody : Option PyObj
  rnext : Option String

/-- What one client call produces: the HTTP requests actually dispatched to
the transport, the error-severity log entries emitted, and the returned
value or raised exception. -/
structure Outcome (α : Type) where
  dispatched : List HttpRequest
  logs : List String
  result : Except PyErr α

/-- The transport: `requests.request`, as a function from the dispatched
request to its response. -/
def Http : Type := HttpRequest → Response

def ENDPOINT_HOST : String := "https://api.clubhouse.io"

def ENDPOINT_PATH : String := "/api/v3"

/-- `if not segments[0].startswith(ENDPOINT_PATH): segments = [ENDPOINT_PATH,
*segments]` — `s` is the first segment, already known to be a string. -/
def fullSegments (s : String) (segments : List PyObj) : List PyObj :=
  if strStartsWith s ENDPOINT_PATH then segments
  else PyObj.str ENDPOINT_PATH :: segments

/-- `url = path.join(ENDPOINT_HOST, *[str(s).strip("/") for s in segments])`. -/
def joinedUrl (segments : List PyObj) : String :=
  pathJoin ENDPOINT_HOST (segments.map (fun x => stripSlashes (pyStr x)))

/-- `prefix = "&" if urlparse(url)[4] else "?"` followed by
`url + f"..token={api_key}"`: append the auth token with the chosen
query-string separator. -/
def tokenUrl (c : Client) (url : String) : String :=
  url ++ (if urlQuery url = "" then "?" else "&") ++ "token=" ++ c.api_key

/-- `logger.error(f"Status code: ..., Content: ...")` message text. -/
def logMsg (r : Response) : String :=
  "Status code: " ++ toString r.status_code ++ ", Content: " ++ r.text

/-! ### The client of `__init__.py` (version 0.3.0) -/

namespace InitPy

/-- The request `__init__.py`'s `_request` hands to `requests.request`:
no explicit headers or data, keyword arguments passed through. -/
def builtRequest (c : Client) (method : String) (s : String)
    (segments : List PyObj) (kw : List (String × PyObj)) : HttpRequest :=
  ⟨method, tokenUrl c (joinedUrl (fullSegments s segments)), [], none, kw⟩

/-- The tail of `__init__.py`'s `_request` after the error check: `204`
yields `\x7b\x7d`, otherwise `response.json()` (a decode failure raises). -/
def finish (req : HttpRequest) (logs : List String) (r : Response) :
    Outcome PyObj :=
  if r.status_code = 204 then ⟨[req], logs, Except.ok (PyObj.obj [])⟩
  else
    match r.jsonBody with
    | some j => ⟨[req], logs, Except.ok j⟩
    | none => ⟨[req], logs, Except.error PyErr.jsonDecodeError⟩

/-- `__init__.py` `ClubhouseClient._request(self, method, *segments,
**kwargs)`.  `segments[0]` raises `IndexError` on an empty segment list and
`AttributeError` when the first segment is not a string; a failing status
outside the ignored list is logged and `raise_for_status()` is called,
which raises only for status codes in 400..599. -/
def request (c : Client) (http : Http) (method : String)
    (segments : List PyObj) (kw : List (String × PyObj)) : Outcome PyObj :=
  match segments with
  | [] => ⟨[], [], Except.error PyErr.indexError⟩
  | PyObj.str s :: _ =>
      let req := builtRequest c method s segments kw
      let r := http req
      if 299 < r.status_code ∧ r.status_code ∉ c.ignored_status_codes then
        if 400 ≤ r.status_code ∧ r.status_code < 600 then
          ⟨[req], [logMsg r], Except.error (PyErr.httpError r.status_code r.text)⟩
        else finish req [logMsg r] r
      else finish req [] r
  | _ :: _ => ⟨[], [], Except.error (PyErr.attributeError "startswith")⟩

/-- `__init__.py` `get(self, *segments, **kwargs)`. -/
def get (c : Client) (http : Http) (segments : List PyObj)
    (kw : List (String × PyObj)) : Outcome PyObj :=
  request c http "get" segments kw

/-- `__init__.py` `post(self, *segments, **kwargs)`. -/
def post (c : Client) (http : Http) (segments : List PyObj)
    (kw : List (String × PyObj)) : Outcome PyObj :=
  request c http "post" segments kw

/-- `__init__.py` `put(self, *segments, **kwargs)`. -/
def put (c : Client) (http : Http) (segments : List PyObj)
    (kw : List (String × PyObj)) : Outcome PyObj :=
  request c http "put" segments kw

/-- `__init__.py` `delete(self, *segments, **kwargs)`. -/
def delete (c : Client) (http : Http) (segments : List PyObj)
    (kw : List (String × PyObj)) : Outcome PyObj :=
  request c http "delete" segments kw

end InitPy

/-! ### Python operations used by the pagination code -/

/-- Python truthiness of a value (`if result["next"]: ...`). -/
def pyTruthy : PyObj → Bool
  | PyObj.null => false
  | PyObj.bool b => b
  | PyObj.num n => n ≠ 0
  | PyObj.str s => s ≠ ""
  | PyObj.arr l => !l.isEmpty
  | PyObj.obj m => !m.isEmpty
  | PyObj.pyobject _ => true

/-- Python substring containment `pat in s` on character lists. -/
def isSubList (pat : List Char) : List Char → Bool
  | [] => pat.isEmpty
  | c :: t => pat.isPrefixOf (c :: t) || isSubList pat t

/-- Python `key in v` for a string `key`: key membership for a dict,
element membership for a list, substring test for a string, `TypeError`
otherwise. -/
def pyIn (key : String) : PyObj → Except PyErr Bool
  | PyObj.obj m => Except.ok (m.any (fun e => e.1 = key))
  | PyObj.arr l =>
      Except.ok (l.any (fun v =>
        match v with
        | PyObj.str s => s = key
        | _ => false))
  | PyObj.str s => Except.ok (isSubList key.data s.data)
  | _ => Except.error (PyErr.typeError "argument is not iterable")

/-- Python `v[key]` for a string `key`: dict lookup (`KeyError` when the key
is missing), `TypeError` on any other value. -/
def pySubscr (v : PyObj) (key : String) : Except PyErr PyObj :=
  match v with
  | PyObj.obj m =>
      match m.find? (fun e => e.1 = key) with
      | some e => Except.ok e.2
      | none => Except.error (PyErr.keyError key)
  | PyObj.arr _ => Except.error (PyErr.typeError "list indices must be integers")
  | PyObj.str _ => Except.error (PyErr.typeError "string indices must be integers")
  | _ => Except.error (PyErr.typeError "value is not subscriptable")

/-- Python iteration of a value into a list of elements, as used by the
`*`-unpacking in `[*items, *result["data"]]` and by `list.extend`: a list
yields its elements, a dict its keys, a string its characters, anything
else raises `TypeError`. -/
def pyIterate : PyObj → Except PyErr (List PyObj)
  | PyObj.arr l => Except.ok l
  | PyObj.obj m => Except.ok (m.map (fun e => PyObj.str e.1))
  | PyObj.str s => Except.ok (s.data.map (fun ch => PyObj.str (String.singleton ch)))
  | _ => Except.error (PyErr.typeError "value is not iterable")

/-! ### `search_stories` of `__init__.py` -/

namespace InitPy

/-- The `while "next" in result and result["next"]:` loop of
`search_stories`, with a fuel bound on the number of iterations (the Python
loop runs as long as the server keeps supplying cursors).  `dis` and `lgs`
accumulate the requests dispatched and log entries emitted so far. -/
def searchLoop (c : Client) (http : Http) :
    Nat → PyObj → PyObj → List HttpRequest → List String → Outcome PyObj
  | fuel, result, items, dis, lgs =>
    match pyIn "next" result with
    | Except.error e => ⟨dis, lgs, Except.error e⟩
    | Except.ok false => ⟨dis, lgs, Except.ok items⟩
    | Except.ok true =>
        match pySubscr result "next" with
        | Except.error e => ⟨dis, lgs, Except.error e⟩
        | Except.ok nextVal =>
            if pyTruthy nextVal then
              match fuel with
              | 0 => ⟨dis, lgs, Except.error PyErr.fuelExhausted⟩
              | Nat.succ fuel =>
                  let o := request c http "get" [nextVal] []
                  match o.result with
                  | Except.error e =>
                      ⟨dis ++ o.dispatched, lgs ++ o.logs, Except.error e⟩
                  | Except.ok result2 =>
                      match pyIterate items with
                      | Except.error e =>
                          ⟨dis ++ o.dispatched, lgs ++ o.logs, Except.error e⟩
                      | Except.ok l1 =>
                          match pySubscr result2 "data" with
                          | Except.error e =>
                              ⟨dis ++ o.dispatched, lgs ++ o.logs, Except.error e⟩
                          | Except.ok d2 =>
                              match pyIterate d2 with
                              | Except.error e =>
                                  ⟨dis ++ o.dispatched, lgs ++ o.logs,
                                   Except.error e⟩
                              | Except.ok l2 =>
                                  searchLoop c http fuel result2
                                    (PyObj.arr (l1 ++ l2))
                                    (dis ++ o.dispatched) (lgs ++ o.logs)
            else ⟨dis, lgs, Except.ok items⟩

/-- `__init__.py` `search_stories(self, **kwargs)`: a GET of
`search/stories` with `json=kwargs`, reading `result["data"]` as the first
page and following `result["next"]` cursors. -/
def searchStories (c : Client) (http : Http)
    (kwargs : List (String × PyObj)) (fuel : Nat) : Outcome PyObj :=
  let o := request c http "get" [PyObj.str "search", PyObj.str "stories"]
    [("json", PyObj.obj kwargs)]
  match o.result with
  | Except.error e => ⟨o.dispatched, o.logs, Except.error e⟩
  | Except.ok result =>
      match pySubscr result "data" with
      | Except.error e => ⟨o.dispatched, o.logs, Except.error e⟩
      | Except.ok items =>
          searchLoop c http fuel result items o.dispatched o.logs

end InitPy

/-! ### The client of `api.py` -/

/-- What `api.py`'s `_request` returns to its caller: the empty dict for a
204 response, and otherwise the raw `requests` response object. -/
inductive ApiRet where
  | mapping (entries : List (String × PyObj)) : ApiRet
  | response (r : Response) : ApiRet

namespace ApiPy

/-- The request `api.py`'s `_request` hands to `requests.request`: the
`Content-Type: application/json` header, the serialized body as `data`,
and the keyword arguments passed through. -/
def builtRequest (c : Client) (method : String) (s : String)
    (segments : List PyObj) (dataStr : String)
    (kw : List (String × PyObj)) : HttpRequest :=
  ⟨method, tokenUrl c (joinedUrl (fullSegments s segments)),
   [("Content-Type", "application/json")], some dataStr, kw⟩

/-- The tail of `api.py`'s `_request` after the error check: `204` yields
the empty dict, otherwise the response object itself is returned. -/
def finish (req : HttpRequest) (logs : List String) (r : Response) :
    Outcome ApiRet :=
  if r.status_code = 204 then ⟨[req], logs, Except.ok (ApiRet.mapping [])⟩
  else ⟨[req], logs, Except.ok (ApiRet.response r)⟩

/-- `api.py` `ClubhouseClient._request(self, method, data=None, *segments,
**kwargs)`: builds the URL from the segments, serializes `data` with
`json.dumps` (a `TypeError` there surfaces before any dispatch), dispatches
with the JSON content-type header, logs and calls `raise_for_status()` for
failing non-ignored statuses (raising only for 400..599), returns the empty
dict for 204 and otherwise the raw response object. -/
def request (c : Client) (http : Http) (method : String) (data : PyObj)
    (segments : List PyObj) (kw : List (String × PyObj)) : Outcome ApiRet :=
  match segments with
  | [] => ⟨[], [], Except.error PyErr.indexError⟩
  | PyObj.str s :: _ =>
      match jsonDumps data with
      | Except.error e => ⟨[], [], Except.error e⟩
      | Except.ok dataStr =>
          let req := builtRequest c method s segments dataStr kw
          let r := http req
          if 299 < r.status_code ∧ r.status_code ∉ c.ignored_status_codes then
            if 400 ≤ r.status_code ∧ r.status_code < 600 then
              ⟨[req], [logMsg r],
               Except.error (PyErr.httpError r.status_code r.text)⟩
            else finish req [logMsg r] r
          else finish req [] r
  | _ :: _ => ⟨[], [], Except.error (PyErr.attributeError "startswith")⟩

/-- `api.py` `get(self, *segments, **kwargs)`, which forwards as
`self._request("get", *segments, **kwargs)`: under `_request`'s signature
`(self, method, data=None, *segments, **kwargs)` the first element of
`segments` is bound to the `data` parameter. -/
def get (c : Client) (http : Http) (segments : List PyObj)
    (kw : List (String × PyObj)) : Outcome ApiRet :=
  match segments with
  | [] => request c http "get" PyObj.null [] kw
  | d :: rest => request c http "get" d rest kw

/-- `api.py` `post(self, *segments, **kwargs)`. -/
def post (c : Client) (http : Http) (segments : List PyObj)
    (kw : List (String × PyObj)) : Outcome ApiRet :=
  match segments with
  | [] => request c http "post" PyObj.null [] kw
  | d :: rest => request c http "post" d rest kw

/-- `api.py` `put(self, *segments, **kwargs)`. -/
def put (c : Client) (http : Http) (segments : List PyObj)
    (kw : List (String × PyObj)) : Outcome ApiRet :=
  match segments with
  | [] => request c http "put" PyObj.null [] kw
  | d :: rest => request c http "put" d rest kw

/-- `api.py` `delete(self, *segments, **kwargs)`. -/
def delete (c : Client) (http : Http) (segments : List PyObj)
    (kw : List (String × PyObj)) : Outcome ApiRet :=
  match segments with
  | [] => request c http "delete" PyObj.null [] kw
  | d :: rest => request c http "delete" d rest kw

/-- `result.json()` applied to what `_request` returned, as done by the item
helpers: on the empty dict (a 204) the attribute access raises
`AttributeError`; on a response object the parsed JSON body is returned,
a decode failure raising. -/
def jsonOf (o : Outcome ApiRet) : Outcome PyObj :=
  match o.result with
  | Except.error e => ⟨o.dispatched, o.logs, Except.error e⟩
  | Except.ok (ApiRet.mapping _) =>
      ⟨o.dispatched, o.logs, Except.error (PyErr.attributeError "json")⟩
  | Except.ok (ApiRet.response r) =>
      match r.jsonBody with
      | some j => ⟨o.dispatched, o.logs, Except.ok j⟩
      | none => ⟨o.dispatched, o.logs, Except.error PyErr.jsonDecodeError⟩

/-- `api.py` `_get_item`: `self._request("get", None, *segments)` then
`result.json()`. -/
def getItem (c : Client) (http : Http) (segments : List PyObj)
    (kw : List (String × PyObj)) : Outcome PyObj :=
  jsonOf (request c http "get" PyObj.null segments kw)

/-- `api.py` `_create_item`: `self._request("post", data, *segments)` then
`result.json()`. -/
def createItem (c : Client) (http : Http) (data : PyObj)
    (segments : List PyObj) (kw : List (String × PyObj)) : Outcome PyObj :=
  jsonOf (request c http "post" data segments kw)

/-- `api.py` `_update_item`: `self._request("put", data, *segments)` then
`result.json()`. -/
def updateItem (c : Client) (http : Http) (data : PyObj)
    (segments : List PyObj) (kw : List (String × PyObj)) : Outcome PyObj :=
  jsonOf (request c http "put" data segments kw)

/-- `api.py` `_delete_item`: `self._request("delete", None, *segments)`
returned unchanged. -/
def deleteItem (c : Client) (http : Http) (segments : List PyObj)
    (kw : List (String × PyObj)) : Outcome ApiRet :=
  request c http "delete" PyObj.null segments kw

/-- The `while result.next:` loop of `api.py`'s `_list_items`.  `result` is
the `requests` response object, so `result.next` is its redirect-chain
attribute (`none` unless the response is a redirect result), not the
`next` field of the JSON body.  When it is present, the loop re-enters
`_request` passing the `PreparedRequest` object as the segment, where
`segments[0].startswith` raises `AttributeError`. -/
def listLoop (c : Client) (http : Http) (kw : List (String × PyObj)) :
    Nat → Response → PyObj → List HttpRequest → List String → Outcome PyObj
  | fuel, r, items, dis, lgs =>
    match r.rnext with
    | none => ⟨dis, lgs, Except.ok items⟩
    | some nextUrl =>
        match fuel with
        | 0 => ⟨dis, lgs, Except.error PyErr.fuelExhausted⟩
        | Nat.succ fuel =>
            let o := request c http "get" PyObj.null
              [PyObj.pyobject ("PreparedRequest " ++ nextUrl)] kw
            match o.result with
            | Except.error e =>
                ⟨dis ++ o.dispatched, lgs ++ o.logs, Except.error e⟩
            | Except.ok ret =>
                match items with
                | PyObj.arr l1 =>
                    match ret with
                    | ApiRet.mapping _ =>
                        ⟨dis ++ o.dispatched, lgs ++ o.logs,
                         Except.error (PyErr.attributeError "json")⟩
                    | ApiRet.response r2 =>
                        match r2.jsonBody with
                        | none =>
                            ⟨dis ++ o.dispatched, lgs ++ o.logs,
                             Except.error PyErr.jsonDecodeError⟩
                        | some v =>
                            match pyIterate v with
                            | Except.error e =>
                                ⟨dis ++ o.dispatched, lgs ++ o.logs,
                                 Except.error e⟩
                            | Except.ok l2 =>
                                listLoop c http kw fuel r2
                                  (PyObj.arr (l1 ++ l2))
                                  (dis ++ o.dispatched) (lgs ++ o.logs)
                | _ =>
                    ⟨dis ++ o.dispatched, lgs ++ o.logs,
                     Except.error (PyErr.attributeError "extend")⟩

/-- `api.py` `_list_items`: `items = result.json()` — the whole parsed body,
not its `data` field — then the `while result.next:` loop. -/
def listItems (c : Client) (http : Http) (segments : List PyObj)
    (kw : List (String × PyObj)) (fuel : Nat) : Outcome PyObj :=
  let o := request c http "get" PyObj.null segments kw
  match o.result with
  | Except.error e => ⟨o.dispatched, o.logs, Except.error e⟩
  | Except.ok (ApiRet.mapping _) =>
      ⟨o.dispatched, o.logs, Except.error (PyErr.attributeError "json")⟩
  | Except.ok (ApiRet.response r) =>
      match r.jsonBody with
      | none => ⟨o.dispatched, o.logs, Except.error PyErr.jsonDecodeError⟩
      | some items => listLoop c http kw fuel r items o.dispatched o.logs

/-- `api.py` `list_epics`: `self._list_items("epics", **kwargs)`. -/
def listEpics (c : Client) (http : Http) (kw : List (String × PyObj))
    (fuel : Nat) : Outcome PyObj :=
  listItems c http [PyObj.str "epics"] kw fuel

end ApiPy

/-! ### Concrete fixtures used by the claim instances -/

/-- A client with key `KEY` and no ignored status codes. -/
def cK : Client := ⟨"KEY", []⟩

/-- A client with key `KEY` and 404 in its ignored status codes. -/
def cIgn404 : Client := ⟨"KEY", [404]⟩

/-- Page 1 of the pagination example: data `[1, 2]`, next
`/api/v3/x?page=2`. -/
def page1json : PyObj :=
  PyObj.obj [("data", PyObj.arr [PyObj.num 1, PyObj.num 2]),
             ("next", PyObj.str "/api/v3/x?page=2")]

/-- Page 2 of the pagination example: data `[3]`, next `null`. -/
def page2json : PyObj :=
  PyObj.obj [("data", PyObj.arr [PyObj.num 3]), ("next", PyObj.null)]

/-- The page-1 response: status 200, not a redirect result. -/
def page1resp : Response := ⟨200, "page1", some page1json, none⟩

/-- The page-2 response: status 200, not a redirect result. -/
def page2resp : Response := ⟨200, "page2", some page2json, none⟩

/-- A transport serving the two-page example: the cursor URL returns page 2,
every other URL returns page 1. -/
def pagedHttp : Http := fun req =>
  if req.url = "https://api.clubhouse.io/api/v3/x?page=2&token=KEY"
  then page2resp else page1resp

/-- A response with status 200 and body `\x7b"a": 1\x7d`. -/
def okResp : Response := ⟨200, "\x7b\"a\": 1\x7d", some (PyObj.obj [("a", PyObj.num 1)]), none⟩

/-- A transport answering 200 with body `\x7b"a": 1\x7d` to every request. -/
def okHttp : Http := fun _ => okResp

/-- A redirect response: status 302 with a `Location`-style body. -/
def redirectResp : Response := ⟨302, "Found", some (PyObj.obj [("loc", PyObj.str "elsewhere")]), none⟩

/-- A transport answering 302 to every request. -/
def redirectHttp : Http := fun _ => redirectResp

/-- A 404 response with a JSON body. -/
def notFoundResp : Response := ⟨404, "Not Found", some (PyObj.obj [("message", PyObj.str "missing")]), none⟩

/-- A transport answering the JSON 404 to every request. -/
def notFoundHttp : Http := fun _ => notFoundResp

/-- A 404 response with an empty, non-JSON body. -/
def emptyNotFoundResp : Response := ⟨404, "", none, none⟩

/-- A transport answering the bodyless 404 to every request. -/
def emptyNotFoundHttp : Http := fun _ => emptyNotFoundResp

/-- A 204 response carrying body text that is not JSON. -/
def noContentResp : Response := ⟨204, "ignored body", none, none⟩

/-- A transport answering 204 to every request. -/
def noContentHttp : Http := fun _ => noContentResp

/-- Number of occurrences of `pat` as a contiguous substring of `l`
(counted at every starting position, for a non-empty `pat`). -/
def countOccL (pat : List Char) : List Char → Nat
  | [] => 0
  | c :: t => (if pat.isPrefixOf (c :: t) then 1 else 0) + countOccL pat t

/-! ### Helper lemmas -/

theorem strData_append (a b : String) : (a ++ b).data = a.data ++ b.data := rfl

theorem countOccL_cons (pat : List Char) (c : Char) (t : List Char) :
    countOccL pat (c :: t) =
      (if pat <+: (c :: t) then 1 else 0) + countOccL pat t := by
  show (if pat.isPrefixOf (c :: t) then 1 else 0) + countOccL pat t = _
  by_cases h : pat <+: (c :: t)
  · rw [if_pos ( List.isPrefixOf_iff_prefix.mpr h), if_pos h]
  · rw [if_neg (fun hb => h ( List.isPrefixOf_iff_prefix.mp hb)), if_neg h]

theorem prefix_append_left_iff {pat X B : List Char} (h : pat.length ≤ X.length) :
    pat <+: (X ++ B) ↔ pat <+: X := by
  constructor
  · intro hp
    rw [ List.prefix_iff_eq_take] at hp ⊢
    rwa [List.take_append_of_le_length h] at hp
  · intro hp
    exact hp.trans (List.prefix_append X B)

/-- Occurrence counting distributes over an append when no occurrence of the
pattern straddles the boundary: no short suffix of `A` is the corresponding
short partial pattern (a prefix of `pat` shorter than `pat` itself). -/
theorem countOccL_append (pat : List Char) :
    ∀ A B : List Char,
      (∀ n, n < pat.length → 0 < n → A.drop (A.length - n) ≠ pat.take n) →
      countOccL pat (A ++ B) = countOccL pat A + countOccL pat B := by
  intro A
  induction A with
  | nil => intro B _; simp [countOccL]
  | cons a A ih =>
      intro B hb
      have hb' : ∀ n, n < pat.length → 0 < n →
          A.drop (A.length - n) ≠ pat.take n := by
        intro n hn hpos heq
        have hlen : n ≤ A.length := by
          have h1 := congrArg List.length heq
          simp only [List.length_drop, List.length_take] at h1
          omega
        apply hb n hn hpos
        have h2 : (a :: A).length - n = (A.length - n) + 1 := by
          simp only [List.length_cons]
          omega
        rw [h2, List.drop_succ_cons]
        exact heq
      rw [List.cons_append, countOccL_cons, countOccL_cons, ih B hb']
      by_cases hlen : pat.length ≤ (a :: A).length
      · rw [← List.cons_append]
        by_cases hp : pat <+: (a :: A)
        · rw [if_pos hp, if_pos ((prefix_append_left_iff hlen).mpr hp)]
          omega
        · rw [if_neg hp, if_neg (fun hq => hp ((prefix_append_left_iff hlen).mp hq))]
          omega
      · have h1 : ¬ pat <+: (a :: A) := fun hp => hlen hp.length_le
        have h2 : ¬ pat <+: ((a :: A) ++ B) := by
          intro hp
          have hXp : (a :: A) <+: pat :=
            List.prefix_of_prefix_length_le (List.prefix_append _ _) hp (by omega)
          have heq : (a :: A) = pat.take (a :: A).length :=
            List.prefix_iff_eq_take.mp hXp
          apply hb (a :: A).length (by omega) (by simp)
          rw [Nat.sub_self, List.drop_zero]
          exact heq
        rw [← List.cons_append, if_neg h1, if_neg h2]
        omega

theorem dropWhile_head_ne (p : Char → Bool) :
    ∀ (l : List Char) (c : Char), (l.dropWhile p).head? = some c → p c = false := by
  intro l
  induction l with
  | nil => intro c h; cases h
  | cons a t ih =>
      intro c h
      by_cases ha : p a
      · rw [List.dropWhile_cons_of_pos ha] at h
        exact ih c h
      · rw [List.dropWhile_cons_of_neg ha] at h
        cases h
        exact Bool.eq_false_iff.mpr ha

theorem stripSlashes_head (u : String) (c : Char) :
    (stripSlashes u).data.head? = some c → c ≠ '/' := by
  intro hc
  set p : Char → Bool := fun x => x = '/' with hp
  have hdata : (stripSlashes u).data =
      (((u.data.dropWhile p).reverse.dropWhile p)).reverse := rfl
  set A := u.data.dropWhile p with hA
  have hsuf : ((A.reverse.dropWhile p)).reverse <+: A := by
    apply List.reverse_suffix.mp
    rw [List.reverse_reverse]
    exact List.dropWhile_suffix p
  rw [hdata] at hc
  obtain ⟨t, ht⟩ := hsuf
  have hAhead : A.head? = some c := by
    rw [← ht]
    cases hrev : ((A.reverse.dropWhile p)).reverse with
    | nil => rw [hrev] at hc; cases hc
    | cons x xs =>
        rw [hrev] at hc
        cases hc
        rfl
  have hpc : p c = false := by
    apply dropWhile_head_ne p u.data c
    rw [← hA]
    exact hAhead
  intro hceq
  rw [hceq] at hpc
  simp [hp] at hpc

theorem strip_no_slash (u : String) : strStartsWith (stripSlashes u) "/" = false := by
  show ("/" : String).data.isPrefixOf (stripSlashes u).data = false
  cases hx : (stripSlashes u).data with
  | nil => rfl
  | cons c t =>
      have hc : c ≠ '/' := stripSlashes_head u c (by rw [hx]; rfl)
      show List.isPrefixOf ['/'] (c :: t) = false
      simp [List.isPrefixOf, Ne.symm hc]

theorem joinOne_data (acc c : String) (hc : strStartsWith c "/" = false) :
    ∃ t : List Char, (joinOne acc c).data = acc.data ++ t := by
  unfold joinOne
  rw [if_neg (by simp [hc])]
  by_cases h : acc = "" ∨ strEndsWith acc "/"
  · rw [if_pos h]
    exact ⟨c.data, strData_append acc c⟩
  · rw [if_neg h]
    refine ⟨'/' :: c.data, ?_⟩
    rw [strData_append, strData_append, List.append_assoc]
    rfl

theorem pathJoin_data (comps : List String) : ∀ acc : String,
    (∀ x ∈ comps, strStartsWith x "/" = false) →
    ∃ t : List Char, (pathJoin acc comps).data = acc.data ++ t := by
  induction comps with
  | nil => intro acc _; exact ⟨[], by simp [pathJoin]⟩
  | cons x xs ih =>
      intro acc hall
      obtain ⟨t0, ht0⟩ := joinOne_data acc x (hall x (List.mem_cons_self x xs))
      obtain ⟨t1, ht1⟩ :=
        ih (joinOne acc x) (fun y hy => hall y (List.mem_cons_of_mem _ hy))
      refine ⟨t0 ++ t1, ?_⟩
      show (pathJoin (joinOne acc x) xs).data = _
      rw [ht1, ht0, List.append_assoc]

theorem stripSlashes_of_api_v3 (s : String) (hs : strStartsWith s ENDPOINT_PATH = true) :
    ∃ z : List Char, (stripSlashes s).data = ("api/v3" : String).data ++ z := by
  have hp : ENDPOINT_PATH.data <+: s.data := List.isPrefixOf_iff_prefix.mp hs
  obtain ⟨y, hy⟩ := hp
  set p : Char → Bool := fun x => x = '/' with hpdef
  have hdata : (stripSlashes s).data =
      (((s.data.dropWhile p).reverse.dropWhile p)).reverse := rfl
  have hsplit : s.data = '/' :: (("api/v3" : String).data ++ y) := by
    rw [← hy]
    rfl
  have hlead : s.data.dropWhile p = ("api/v3" : String).data ++ y := by
    rw [hsplit, List.dropWhile_cons_of_pos (by simp [hpdef])]
    rw [show ("api/v3" : String).data ++ y =
      'a' :: (("pi/v3" : String).data ++ y) from rfl]
    rw [List.dropWhile_cons_of_neg (by simp [hpdef])]
  rw [hdata, hlead, List.reverse_append, List.dropWhile_append]
  by_cases hempty : (y.reverse.dropWhile p).isEmpty
  · rw [if_pos hempty]
    refine ⟨[], ?_⟩
    rw [List.append_nil]
    show (("api/v3" : String).data.reverse.dropWhile p).reverse = _
    rfl
  · rw [if_neg hempty]
    refine ⟨(y.reverse.dropWhile p).reverse, ?_⟩
    rw [List.reverse_append, List.reverse_reverse]

theorem stripped_no_slash (l : List PyObj) :
    ∀ x ∈ l.map (fun v => stripSlashes (pyStr v)), strStartsWith x "/" = false := by
  intro x hx
  obtain ⟨a, _, ha⟩ := List.mem_map.mp hx
  rw [← ha]
  exact strip_no_slash _

/-- The first 31 characters of the URL built by `_request` are always
`https://api.clubhouse.io/api/v3`: either the version path was prepended, or
the first segment already started with it and survives stripping. -/
theorem joined_take31 (s : String) (rest : List PyObj) :
    (joinedUrl (fullSegments s (PyObj.str s :: rest))).data.take 31 =
      ("https://api.clubhouse.io/api/v3" : String).data := by
  by_cases hs : strStartsWith s ENDPOINT_PATH = true
  · obtain ⟨z, hz⟩ := stripSlashes_of_api_v3 s hs
    have hjoin : joinedUrl (fullSegments s (PyObj.str s :: rest)) =
        pathJoin (joinOne ENDPOINT_HOST (stripSlashes s))
          (rest.map (fun x => stripSlashes (pyStr x))) := by
      unfold joinedUrl fullSegments
      rw [if_pos hs]
      rfl
    have hone : joinOne ENDPOINT_HOST (stripSlashes s) =
        ENDPOINT_HOST ++ "/" ++ stripSlashes s := by
      unfold joinOne
      rw [if_neg (by simp [strip_no_slash]), if_neg (by decide)]
    obtain ⟨t, ht⟩ := pathJoin_data (rest.map (fun x => stripSlashes (pyStr x)))
      (joinOne ENDPOINT_HOST (stripSlashes s)) (stripped_no_slash rest)
    rw [hjoin, ht, hone, strData_append, strData_append, hz]
    have hre : ((ENDPOINT_HOST.data ++ ("/" : String).data) ++
        (("api/v3" : String).data ++ z)) ++ t =
        ("https://api.clubhouse.io/api/v3" : String).data ++ (z ++ t) := by
      simp only [List.append_assoc]
      rfl
    rw [hre]
    exact List.take_left' rfl
  · have hjoin : joinedUrl (fullSegments s (PyObj.str s :: rest)) =
        pathJoin (joinOne ENDPOINT_HOST (stripSlashes ENDPOINT_PATH))
          ((PyObj.str s :: rest).map (fun x => stripSlashes (pyStr x))) := by
      unfold joinedUrl fullSegments
      rw [if_neg hs]
      rfl
    have hone : joinOne ENDPOINT_HOST (stripSlashes ENDPOINT_PATH) =
        "https://api.clubhouse.io/api/v3" := rfl
    obtain ⟨t, ht⟩ :=
      pathJoin_data ((PyObj.str s :: rest).map (fun x => stripSlashes (pyStr x)))
        (joinOne ENDPOINT_HOST (stripSlashes ENDPOINT_PATH))
        (stripped_no_slash (PyObj.str s :: rest))
    rw [hjoin, ht, hone]
    exact List.take_left' rfl

theorem initFinish_dispatched (req : HttpRequest) (lg : List String) (r : Response) :
    (InitPy.finish req lg r).dispatched = [req] := by
  unfold InitPy.finish
  split
  · rfl
  · split <;> rfl

theorem initFinish_logs (req : HttpRequest) (lg : List String) (r : Response) :
    (InitPy.finish req lg r).logs = lg := by
  unfold InitPy.finish
  split
  · rfl
  · split <;> rfl

theorem initFinish_no_httpError (req : HttpRequest) (lg : List String)
    (r : Response) (st : Nat) (tx : String) :
    (InitPy.finish req lg r).result ≠ Except.error (PyErr.httpError st tx) := by
  unfold InitPy.finish
  split
  · intro h
    exact Except.noConfusion h
  · split
    · intro h
      exact Except.noConfusion h
    · intro h
      exact PyErr.noConfusion (Except.error.inj h)

theorem apiFinish_dispatched (req : HttpRequest) (lg : List String) (r : Response) :
    (ApiPy.finish req lg r).dispatched = [req] := by
  unfold ApiPy.finish
  split <;> rfl

theorem apiFinish_logs (req : HttpRequest) (lg : List String) (r : Response) :
    (ApiPy.finish req lg r).logs = lg := by
  unfold ApiPy.finish
  split <;> rfl

theorem apiFinish_no_httpError (req : HttpRequest) (lg : List String)
    (r : Response) (st : Nat) (tx : String) :
    (ApiPy.finish req lg r).result ≠ Except.error (PyErr.httpError st tx) := by
  unfold ApiPy.finish
  split <;> intro h <;> exact Except.noConfusion h

theorem initRequest_dispatched (c : Client) (http : Http) (m s : String)
    (rest : List PyObj) (kw : List (String × PyObj)) :
    (InitPy.request c http m (PyObj.str s :: rest) kw).dispatched =
      [InitPy.builtRequest c m s (PyObj.str s :: rest) kw] := by
  dsimp only [InitPy.request]
  split
  · split
    · rfl
    · exact initFinish_dispatched _ _ _
  · exact initFinish_dispatched _ _ _

theorem apiRequest_dispatched (c : Client) (http : Http) (m : String)
    (data : PyObj) (s : String) (rest : List PyObj)
    (kw : List (String × PyObj)) (ds : String)
    (hd : jsonDumps data = Except.ok ds) :
    (ApiPy.request c http m data (PyObj.str s :: rest) kw).dispatched =
      [ApiPy.builtRequest c m s (PyObj.str s :: rest) ds kw] := by
  dsimp only [ApiPy.request]
  rw [hd]
  split
  · rename_i e heq
    exact Except.noConfusion heq
  · rename_i dataStr heq
    injection heq with h
    subst h
    split
    · split
      · rfl
      · exact apiFinish_dispatched _ _ _
    · exact apiFinish_dispatched _ _ _

/-! ### Claim theorems -/

/-- Claim C1, counterexample: the claim asserts that every list operation
reads the first page items from the `data` field and follows the body's
`next` cursor, accumulating `[1, 2, 3]` on the two-page example.  For
`api.py`'s `_list_items` this is false: served the page-1 body
`\x7b"data": [1, 2], "next": "/api/v3/x?page=2"\x7d`, it returns the whole
parsed body — not the `data` items, and not `[1, 2, 3]`. -/
theorem claim_c1_counterexample :
    (ApiPy.listItems cK pagedHttp [PyObj.str "epics"] [] 2).result =
      Except.ok page1json ∧
    Except.ok page1json ≠
      (Except.ok (PyObj.arr [PyObj.num 1, PyObj.num 2, PyObj.num 3]) :
        Except PyErr PyObj) :=
  ⟨rfl, fun h => PyObj.noConfusion (Except.ok.inj h)⟩

/-- Claim C1, amended: `__init__.py`'s `search_stories` does read the `data`
field and follow the body's non-empty `next` cursor, yielding the ordered
sequence `[1, 2, 3]` on the two-page example (dispatching exactly the
original URL and then the cursor URL); but `api.py`'s `_list_items` instead
takes the entire parsed JSON body as the item collection and its loop tests
the transport response's redirect attribute `next`, so on a non-redirect
response it returns the whole first-page body without following the JSON
cursor. -/
theorem claim_c1_pagination :
    (InitPy.searchStories cK pagedHttp [] 2).result =
      Except.ok (PyObj.arr [PyObj.num 1, PyObj.num 2, PyObj.num 3]) ∧
    (InitPy.searchStories cK pagedHttp [] 2).dispatched.map HttpRequest.url =
      ["https://api.clubhouse.io/api/v3/search/stories?token=KEY",
       "https://api.clubhouse.io/api/v3/x?page=2&token=KEY"] ∧
    (ApiPy.listItems cK pagedHttp [PyObj.str "epics"] [] 2).result =
      Except.ok page1json ∧
    (ApiPy.listItems cK pagedHttp [PyObj.str "epics"] [] 2).dispatched.map
        HttpRequest.url =
      ["https://api.clubhouse.io/api/v3/epics?token=KEY"] :=
  ⟨rfl, rfl, rfl, rfl⟩

/-- Claim C2: in `__init__.py` each convenience wrapper equals `_request`
with the fixed method on the same segments and options.  In `api.py` the
claim fails: `_request`'s signature is `(self, method, data=None,
*segments, **kwargs)`, so a wrapper call diverts its first segment into the
`data` body parameter — `get("epics")` raises `IndexError` on the then
empty segment list, and `get("epics", "1")` dispatches to `/api/v3/1` with
the JSON body `"epics"` instead of to `/api/v3/epics/1`. -/
theorem claim_c2_wrappers :
    (∀ (c : Client) (http : Http) (segments : List PyObj)
       (kw : List (String × PyObj)),
        InitPy.get c http segments kw = InitPy.request c http "get" segments kw ∧
        InitPy.post c http segments kw = InitPy.request c http "post" segments kw ∧
        InitPy.put c http segments kw = InitPy.request c http "put" segments kw ∧
        InitPy.delete c http segments kw =
          InitPy.request c http "delete" segments kw) ∧
    (∀ (c : Client) (http : Http) (d : PyObj) (rest : List PyObj)
       (kw : List (String × PyObj)),
        ApiPy.get c http (d :: rest) kw = ApiPy.request c http "get" d rest kw) ∧
    (ApiPy.get cK okHttp [PyObj.str "epics"] []).result =
      Except.error PyErr.indexError ∧
    (ApiPy.get cK okHttp [PyObj.str "epics", PyObj.str "1"] []).dispatched =
      [⟨"get", "https://api.clubhouse.io/api/v3/1?token=KEY",
        [("Content-Type", "application/json")], some "\"epics\"", []⟩] :=
  ⟨fun _ _ _ _ => ⟨rfl, rfl, rfl, rfl⟩, fun _ _ _ _ _ => rfl, rfl, rfl⟩

/-- Claim C3, counterexample: a 302 response, with an empty ignored set,
has status greater than 299, is logged — but no error is raised: the call
returns the parsed body normally, because `raise_for_status()` raises only
for statuses in 400..599. -/
theorem claim_c3_counterexample :
    299 < redirectResp.status_code ∧
    redirectResp.status_code ∉ cK.ignored_status_codes ∧
    (InitPy.request cK redirectHttp "get" [PyObj.str "epics"] []).logs =
      ["Status code: 302, Content: Found"] ∧
    (InitPy.request cK redirectHttp "get" [PyObj.str "epics"] []).result =
      Except.ok (PyObj.obj [("loc", PyObj.str "elsewhere")]) :=
  ⟨by decide, by decide, rfl, rfl⟩

/-- Claim C3, amended: a response with status above 299 and not in the
ignored set is logged at error severity (status code and body); an
`HTTPError` carrying the status and body is then raised if and only if the
status is in 400..599 — a non-ignored status in 300..399 (or 600 and
above) is logged but not raised and execution continues.  Any other
response is neither logged nor raised as an `HTTPError`.  This holds for
the `_request` of both `__init__.py` and `api.py`. -/
theorem claim_c3_error_classification :
    ∀ (c : Client) (http : Http) (m s : String) (rest : List PyObj)
      (kw : List (String × PyObj)) (r : Response),
      (http (InitPy.builtRequest c m s (PyObj.str s :: rest) kw) = r →
        (299 < r.status_code → r.status_code ∉ c.ignored_status_codes →
          (InitPy.request c http m (PyObj.str s :: rest) kw).logs = [logMsg r] ∧
          (400 ≤ r.status_code → r.status_code < 600 →
            (InitPy.request c http m (PyObj.str s :: rest) kw).result =
              Except.error (PyErr.httpError r.status_code r.text)) ∧
          (r.status_code < 400 ∨ 600 ≤ r.status_code →
            ∀ st tx, (InitPy.request c http m (PyObj.str s :: rest) kw).result ≠
              Except.error (PyErr.httpError st tx))) ∧
        (¬ (299 < r.status_code ∧ r.status_code ∉ c.ignored_status_codes) →
          (InitPy.request c http m (PyObj.str s :: rest) kw).logs = [] ∧
          ∀ st tx, (InitPy.request c http m (PyObj.str s :: rest) kw).result ≠
            Except.error (PyErr.httpError st tx))) ∧
      (http (ApiPy.builtRequest c m s (PyObj.str s :: rest) "null" kw) = r →
        (299 < r.status_code → r.status_code ∉ c.ignored_status_codes →
          (ApiPy.request c http m PyObj.null (PyObj.str s :: rest) kw).logs =
            [logMsg r] ∧
          (400 ≤ r.status_code → r.status_code < 600 →
            (ApiPy.request c http m PyObj.null (PyObj.str s :: rest) kw).result =
              Except.error (PyErr.httpError r.status_code r.text)) ∧
          (r.status_code < 400 ∨ 600 ≤ r.status_code →
            ∀ st tx,
              (ApiPy.request c http m PyObj.null (PyObj.str s :: rest) kw).result ≠
                Except.error (PyErr.httpError st tx))) ∧
        (¬ (299 < r.status_code ∧ r.status_code ∉ c.ignored_status_codes) →
          (ApiPy.request c http m PyObj.null (PyObj.str s :: rest) kw).logs = [] ∧
          ∀ st tx,
            (ApiPy.request c http m PyObj.null (PyObj.str s :: rest) kw).result ≠
              Except.error (PyErr.httpError st tx))) := by
  intro c http m s rest kw r
  constructor
  · intro hr
    constructor
    · intro h1 h2
      dsimp only [InitPy.request]
      rw [hr, if_pos ⟨h1, h2⟩]
      refine ⟨?_, ?_, ?_⟩
      · by_cases h4 : 400 ≤ r.status_code ∧ r.status_code < 600
        · rw [if_pos h4]
        · rw [if_neg h4]
          exact initFinish_logs _ _ _
      · intro h4a h4b
        rw [if_pos ⟨h4a, h4b⟩]
      · intro h4 st tx
        rw [if_neg (fun hq => by omega)]
        exact initFinish_no_httpError _ _ _ _ _
    · intro hn
      dsimp only [InitPy.request]
      rw [hr, if_neg hn]
      exact ⟨initFinish_logs _ _ _,
        fun st tx => initFinish_no_httpError _ _ _ _ _⟩
  · intro hr
    constructor
    · intro h1 h2
      dsimp only [ApiPy.request, jsonDumps]
      rw [hr, if_pos ⟨h1, h2⟩]
      refine ⟨?_, ?_, ?_⟩
      · by_cases h4 : 400 ≤ r.status_code ∧ r.status_code < 600
        · rw [if_pos h4]
        · rw [if_neg h4]
          exact apiFinish_logs _ _ _
      · intro h4a h4b
        rw [if_pos ⟨h4a, h4b⟩]
      · intro h4 st tx
        rw [if_neg (fun hq => by omega)]
        exact apiFinish_no_httpError _ _ _ _ _
    · intro hn
      dsimp only [ApiPy.request, jsonDumps]
      rw [hr, if_neg hn]
      exact ⟨apiFinish_logs _ _ _,
        fun st tx => apiFinish_no_httpError _ _ _ _ _⟩

/-- Witness for C3: the amended classification applied to the concrete 302,
404 and 200 transports. -/
theorem claim_c3_witness :
    (InitPy.request cK redirectHttp "get" [PyObj.str "epics"] []).logs =
      [logMsg redirectResp] ∧
    (InitPy.request cK notFoundHttp "get" [PyObj.str "epics"] []).result =
      Except.error (PyErr.httpError notFoundResp.status_code notFoundResp.text) ∧
    (InitPy.request cK okHttp "get" [PyObj.str "epics"] []).logs = [] :=
  ⟨(((claim_c3_error_classification cK redirectHttp "get" "epics" [] []
      redirectResp).1 rfl).1 (by decide) (by decide)).1,
   ((((claim_c3_error_classification cK notFoundHttp "get" "epics" [] []
      notFoundResp).1 rfl).1 (by decide) (by decide)).2.1 (by decide) (by decide)),
   (((claim_c3_error_classification cK okHttp "get" "epics" [] []
      okResp).1 rfl).2 (by decide)).1⟩

/-- Claim C4, counterexample: on a non-error, non-204 response whose body
parses as `\x7b"a": 1\x7d`, `api.py`'s `_request` returns the raw response
object itself to its caller — not the parsed JSON body. -/
theorem claim_c4_counterexample :
    okResp.status_code = 200 ∧
    okResp.jsonBody = some (PyObj.obj [("a", PyObj.num 1)]) ∧
    (ApiPy.request cK okHttp "get" PyObj.null [PyObj.str "epics"] []).result =
      Except.ok (ApiRet.response okResp) ∧
    ApiRet.response okResp ≠ ApiRet.mapping [("a", PyObj.num 1)] :=
  ⟨rfl, rfl, rfl, fun h => ApiRet.noConfusion h⟩

/-- Claim C4, amended: for a non-error (or error-ignored), non-204
response, `__init__.py`'s `_request` returns the parsed JSON body to the
caller; `api.py`'s `_request` instead returns the raw response object, and
its item helpers (here `_get_item`) obtain the parsed JSON body by calling
`.json()` on it. -/
theorem claim_c4_return_value :
    ∀ (c : Client) (http : Http) (m s : String) (rest : List PyObj)
      (kw : List (String × PyObj)) (r : Response) (j : PyObj),
      (http (InitPy.builtRequest c m s (PyObj.str s :: rest) kw) = r →
        ¬ (299 < r.status_code ∧ r.status_code ∉ c.ignored_status_codes) →
        r.status_code ≠ 204 → r.jsonBody = some j →
        (InitPy.request c http m (PyObj.str s :: rest) kw).result =
          Except.ok j) ∧
      (http (ApiPy.builtRequest c m s (PyObj.str s :: rest) "null" kw) = r →
        ¬ (299 < r.status_code ∧ r.status_code ∉ c.ignored_status_codes) →
        r.status_code ≠ 204 →
        (ApiPy.request c http m PyObj.null (PyObj.str s :: rest) kw).result =
          Except.ok (ApiRet.response r)) ∧
      (http (ApiPy.builtRequest c "get" s (PyObj.str s :: rest) "null" kw) = r →
        ¬ (299 < r.status_code ∧ r.status_code ∉ c.ignored_status_codes) →
        r.status_code ≠ 204 → r.jsonBody = some j →
        (ApiPy.getItem c http (PyObj.str s :: rest) kw).result =
          Except.ok j) := by
  intro c http m s rest kw r j
  refine ⟨?_, ?_, ?_⟩
  · intro hr hn h204 hj
    dsimp only [InitPy.request]
    rw [hr, if_neg hn]
    unfold InitPy.finish
    rw [if_neg h204, hj]
  · intro hr hn h204
    dsimp only [ApiPy.request, jsonDumps]
    rw [hr, if_neg hn]
    unfold ApiPy.finish
    rw [if_neg h204]
  · intro hr hn h204 hj
    dsimp only [ApiPy.getItem, ApiPy.jsonOf, ApiPy.request, jsonDumps]
    rw [hr, if_neg hn]
    unfold ApiPy.finish
    rw [if_neg h204]
    dsimp only
    rw [hj]

/-- Witness for C4: the amended statement applied to the concrete 200
response with body `\x7b"a": 1\x7d`. -/
theorem claim_c4_witness :
    (InitPy.request cK okHttp "get" [PyObj.str "epics"] []).result =
      Except.ok (PyObj.obj [("a", PyObj.num 1)]) ∧
    (ApiPy.getItem cK okHttp [PyObj.str "epics"] []).result =
      Except.ok (PyObj.obj [("a", PyObj.num 1)]) :=
  ⟨(claim_c4_return_value cK okHttp "get" "epics" [] [] okResp
      (PyObj.obj [("a", PyObj.num 1)])).1 rfl (by decide) (by decide) rfl,
   (claim_c4_return_value cK okHttp "get" "epics" [] [] okResp
      (PyObj.obj [("a", PyObj.num 1)])).2.2 rfl (by decide) (by decide) rfl⟩

/-- Claim C7: a 204 response always yields the empty mapping, whatever the
response body holds and whatever the ignored status codes are, in both
`__init__.py`'s `_request` and `api.py`'s `_request` (where the dispatched
body is any successfully serialized payload). -/
theorem claim_c7_no_content :
    ∀ (c : Client) (http : Http) (m s : String) (rest : List PyObj)
      (kw : List (String × PyObj)),
      ((http (InitPy.builtRequest c m s (PyObj.str s :: rest) kw)).status_code =
          204 →
        InitPy.request c http m (PyObj.str s :: rest) kw =
          ⟨[InitPy.builtRequest c m s (PyObj.str s :: rest) kw], [],
           Except.ok (PyObj.obj [])⟩) ∧
      (∀ (data : PyObj) (ds : String), jsonDumps data = Except.ok ds →
        (http (ApiPy.builtRequest c m s (PyObj.str s :: rest) ds kw)).status_code =
            204 →
        ApiPy.request c http m data (PyObj.str s :: rest) kw =
          ⟨[ApiPy.builtRequest c m s (PyObj.str s :: rest) ds kw], [],
           Except.ok (ApiRet.mapping [])⟩) := by
  intro c http m s rest kw
  constructor
  · intro h204
    dsimp only [InitPy.request]
    rw [if_neg (fun hq => by rw [h204] at hq; omega)]
    unfold InitPy.finish
    rw [if_pos h204]
  · intro data ds hd h204
    dsimp only [ApiPy.request]
    rw [hd]
    dsimp only
    rw [if_neg (fun hq => by rw [h204] at hq; omega)]
    unfold ApiPy.finish
    rw [if_pos h204]

/-- Witness for C7: the concrete 204 transport (whose body text is not even
JSON) yields the empty mapping from both clients. -/
theorem claim_c7_witness :
    InitPy.request cIgn404 noContentHttp "get" [PyObj.str "epics"] [] =
      ⟨[InitPy.builtRequest cIgn404 "get" "epics" [PyObj.str "epics"] []], [],
       Except.ok (PyObj.obj [])⟩ ∧
    ApiPy.request cK noContentHttp "get" PyObj.null [PyObj.str "epics"] [] =
      ⟨[ApiPy.builtRequest cK "get" "epics" [PyObj.str "epics"] "null" []], [],
       Except.ok (ApiRet.mapping [])⟩ :=
  ⟨(claim_c7_no_content cIgn404 noContentHttp "get" "epics" [] []).1 rfl,
   (claim_c7_no_content cK noContentHttp "get" "epics" [] []).2
     PyObj.null "null" rfl rfl⟩

/-- Claim C8, counterexample: with 404 in the ignored set and a 404
response that has no JSON body, `__init__.py`'s `_request` does not return
an empty mapping — `response.json()` raises a decode error instead. -/
theorem claim_c8_counterexample :
    404 ∈ cIgn404.ignored_status_codes ∧
    emptyNotFoundResp.status_code = 404 ∧
    emptyNotFoundResp.jsonBody = none ∧
    (InitPy.request cIgn404 emptyNotFoundHttp "get" [PyObj.str "epics"] []).result =
      Except.error PyErr.jsonDecodeError ∧
    (Except.error PyErr.jsonDecodeError : Except PyErr PyObj) ≠
      Except.ok (PyObj.obj []) :=
  ⟨by decide, rfl, rfl, rfl, fun h => Except.noConfusion h⟩

/-- Claim C8, amended: with 404 in the ignored set, a 404 response makes
`__init__.py`'s `_request` return the parsed JSON body without raising when
the body parses, and raise a JSON decode error (not an empty mapping) when
it does not; `api.py`'s `_request` returns the raw response object without
raising.  With an empty ignored set, a 404 response raises an error
carrying status 404 and the original response text, after logging it. -/
theorem claim_c8_ignored_404 :
    ∀ (c : Client) (http : Http) (m s : String) (rest : List PyObj)
      (kw : List (String × PyObj)) (r : Response) (j : PyObj),
      (http (InitPy.builtRequest c m s (PyObj.str s :: rest) kw) = r →
        404 ∈ c.ignored_status_codes → r.status_code = 404 →
        (InitPy.request c http m (PyObj.str s :: rest) kw).logs = [] ∧
        (r.jsonBody = some j →
          (InitPy.request c http m (PyObj.str s :: rest) kw).result =
            Except.ok j) ∧
        (r.jsonBody = none →
          (InitPy.request c http m (PyObj.str s :: rest) kw).result =
            Except.error PyErr.jsonDecodeError)) ∧
      (http (InitPy.builtRequest c m s (PyObj.str s :: rest) kw) = r →
        c.ignored_status_codes = [] → r.status_code = 404 →
        (InitPy.request c http m (PyObj.str s :: rest) kw).result =
          Except.error (PyErr.httpError 404 r.text) ∧
        (InitPy.request c http m (PyObj.str s :: rest) kw).logs = [logMsg r]) ∧
      (http (ApiPy.builtRequest c m s (PyObj.str s :: rest) "null" kw) = r →
        404 ∈ c.ignored_status_codes → r.status_code = 404 →
        (ApiPy.request c http m PyObj.null (PyObj.str s :: rest) kw).result =
          Except.ok (ApiRet.response r)) := by
  intro c http m s rest kw r j
  refine ⟨?_, ?_, ?_⟩
  · intro hr hmem hs
    have hn : ¬ (299 < r.status_code ∧
        r.status_code ∉ c.ignored_status_codes) := by
      intro hq
      exact hq.2 (hs ▸ hmem)
    dsimp only [InitPy.request]
    rw [hr, if_neg hn]
    unfold InitPy.finish
    rw [if_neg (fun h4 => by rw [hs] at h4; cases h4)]
    refine ⟨?_, ?_, ?_⟩
    · split <;> rfl
    · intro hb
      rw [hb]
    · intro hb
      rw [hb]
  · intro hr hempty hs
    have hp : 299 < r.status_code ∧ r.status_code ∉ c.ignored_status_codes := by
      constructor
      · omega
      · rw [hempty]
        exact List.not_mem_nil _
    dsimp only [InitPy.request]
    rw [hr, if_pos hp, if_pos (by omega)]
    constructor
    · rw [hs]
    · rfl
  · intro hr hmem hs
    have hn : ¬ (299 < r.status_code ∧
        r.status_code ∉ c.ignored_status_codes) := by
      intro hq
      exact hq.2 (hs ▸ hmem)
    dsimp only [ApiPy.request, jsonDumps]
    rw [hr, if_neg hn]
    unfold ApiPy.finish
    rw [if_neg (fun h4 => by rw [hs] at h4; cases h4)]

/-- Witness for C8: the concrete 404 transports — a parsing body with the
ignoring client, and the same 404 with the non-ignoring client. -/
theorem claim_c8_witness :
    (InitPy.request cIgn404 notFoundHttp "get" [PyObj.str "epics"] []).result =
      Except.ok (PyObj.obj [("message", PyObj.str "missing")]) ∧
    (InitPy.request cK notFoundHttp "get" [PyObj.str "epics"] []).result =
      Except.error (PyErr.httpError 404 notFoundResp.text) ∧
    (ApiPy.request cIgn404 notFoundHttp "get" PyObj.null
        [PyObj.str "epics"] []).result =
      Except.ok (ApiRet.response notFoundResp) :=
  ⟨(((claim_c8_ignored_404 cIgn404 notFoundHttp "get" "epics" [] [] notFoundResp
      (PyObj.obj [("message", PyObj.str "missing")])).1 rfl (by decide)
      rfl).2.1 rfl),
   ((claim_c8_ignored_404 cK notFoundHttp "get" "epics" [] [] notFoundResp
      PyObj.null).2.1 rfl rfl rfl).1,
   (claim_c8_ignored_404 cIgn404 notFoundHttp "get" "epics" [] [] notFoundResp
      PyObj.null).2.2 rfl (by decide) rfl⟩

/-- Claim C9: `api.py`'s `_request` serializes the body with `json.dumps`
before dispatch — a successful serialization is sent as the `data` payload
of the single dispatched request together with the
`Content-Type: application/json` header; `None` serializes to the JSON
`null` literal; and a non-serializable body surfaces as a local
`TypeError` with no request dispatched at all. -/
theorem claim_c9_serialization :
    ∀ (c : Client) (http : Http) (m : String) (data : PyObj) (s : String)
      (rest : List PyObj) (kw : List (String × PyObj)),
      (∀ ds, jsonDumps data = Except.ok ds →
        (ApiPy.request c http m data (PyObj.str s :: rest) kw).dispatched =
          [⟨m, tokenUrl c (joinedUrl (fullSegments s (PyObj.str s :: rest))),
            [("Content-Type", "application/json")], some ds, kw⟩]) ∧
      (∀ e, jsonDumps data = Except.error e →
        ApiPy.request c http m data (PyObj.str s :: rest) kw =
          ⟨[], [], Except.error e⟩) ∧
      jsonDumps PyObj.null = Except.ok "null" ∧
      jsonDumps (PyObj.pyobject "set") =
        Except.error
          (PyErr.typeError "Object of type set is not JSON serializable") := by
  intro c http m data s rest kw
  refine ⟨?_, ?_, rfl, rfl⟩
  · intro ds hd
    exact (apiRequest_dispatched c http m data s rest kw ds hd).trans rfl
  · intro e he
    dsimp only [ApiPy.request]
    rw [he]

/-- Witness for C9: a `None` body dispatches as the literal `null` with the
JSON content type; a Python `set` body fails locally with nothing
dispatched. -/
theorem claim_c9_witness :
    (ApiPy.request cK okHttp "post" PyObj.null [PyObj.str "epics"] []).dispatched =
      [⟨"post", "https://api.clubhouse.io/api/v3/epics?token=KEY",
        [("Content-Type", "application/json")], some "null", []⟩] ∧
    ApiPy.request cK okHttp "post" (PyObj.pyobject "set")
        [PyObj.str "epics"] [] =
      ⟨[], [],
       Except.error
         (PyErr.typeError "Object of type set is not JSON serializable")⟩ :=
  ⟨((claim_c9_serialization cK okHttp "post" PyObj.null "epics" [] []).1
      "null" rfl).trans rfl,
   (claim_c9_serialization cK okHttp "post" (PyObj.pyobject "set") "epics"
      [] []).2.1 _ rfl⟩

/-- Claim C5: the URL constructed by `_request` always begins with the
fixed host, and — whenever the part after the first 31 characters contains
no further occurrence of `/api/v3` — contains the version path exactly
once; each segment has leading and trailing slashes stripped before
joining, so `"/milestones/"` joins as `.../api/v3/milestones` with no
duplicate slashes. -/
theorem claim_c5_url_construction :
    ∀ (s : String) (rest : List PyObj),
      strStartsWith (joinedUrl (fullSegments s (PyObj.str s :: rest)))
        ENDPOINT_HOST = true ∧
      (countOccL ENDPOINT_PATH.data
          ((joinedUrl (fullSegments s (PyObj.str s :: rest))).data.drop 31) = 0 →
        countOccL ENDPOINT_PATH.data
          (joinedUrl (fullSegments s (PyObj.str s :: rest))).data = 1) ∧
      (∀ (c : Client) (kw : List (String × PyObj)) (m : String),
        (InitPy.builtRequest c m s (PyObj.str s :: rest) kw).url =
          tokenUrl c (joinedUrl (fullSegments s (PyObj.str s :: rest)))) ∧
      joinedUrl (fullSegments "/milestones/" [PyObj.str "/milestones/"]) =
        "https://api.clubhouse.io/api/v3/milestones" := by
  intro s rest
  refine ⟨?_, ?_, fun _ _ _ => rfl, rfl⟩
  · apply List.isPrefixOf_iff_prefix.mpr
    have h31 := joined_take31 s rest
    have hhost : ENDPOINT_HOST.data <+:
        ("https://api.clubhouse.io/api/v3" : String).data := by decide
    rw [← h31] at hhost
    exact hhost.trans ( List.take_prefix _ _)
  · intro h0
    have h31 := joined_take31 s rest
    have hsplit : (joinedUrl (fullSegments s (PyObj.str s :: rest))).data =
        (joinedUrl (fullSegments s (PyObj.str s :: rest))).data.take 31 ++
          (joinedUrl (fullSegments s (PyObj.str s :: rest))).data.drop 31 :=
      (List.take_append_drop _ _).symm
    rw [hsplit, h31]
    rw [countOccL_append ENDPOINT_PATH.data
      ("https://api.clubhouse.io/api/v3" : String).data
      ((joinedUrl (fullSegments s (PyObj.str s :: rest))).data.drop 31)
      (by decide)]
    rw [h0]
    decide

/-- Witness for C5: the URL for segments `["epics"]`, whose tail after the
host-and-version part contains no further `/api/v3`, contains the version
path exactly once. -/
theorem claim_c5_witness :
    countOccL ENDPOINT_PATH.data
        ((joinedUrl (fullSegments "epics" [PyObj.str "epics"])).data.drop 31) = 0 ∧
    countOccL ENDPOINT_PATH.data
        (joinedUrl (fullSegments "epics" [PyObj.str "epics"])).data = 1 :=
  ⟨by decide, (claim_c5_url_construction "epics" []).2.1 (by decide)⟩

/-- Claim C6: the token is appended to the joined URL with `&` exactly when
the joined URL already carries a non-empty query string (in the sense of
`urlparse`: after the first `?`, before any fragment) and with `?`
otherwise; in particular `["search/stories?archived=false"]` leads to the
token being appended with `&`. -/
theorem claim_c6_query_token_prefix :
    (∀ (c : Client) (http : Http) (m s : String) (rest : List PyObj)
       (kw : List (String × PyObj)),
        (InitPy.request c http m (PyObj.str s :: rest) kw).dispatched.map
            HttpRequest.url =
          [joinedUrl (fullSegments s (PyObj.str s :: rest)) ++
            (if urlQuery (joinedUrl (fullSegments s (PyObj.str s :: rest))) = ""
             then "?" else "&") ++ "token=" ++ c.api_key]) ∧
    urlQuery "https://api.clubhouse.io/api/v3/search/stories?archived=false" =
      "archived=false" ∧
    urlQuery "https://api.clubhouse.io/api/v3/epics" = "" ∧
    (InitPy.request cK okHttp "get"
        [PyObj.str "search/stories?archived=false"] []).dispatched.map
        HttpRequest.url =
      ["https://api.clubhouse.io/api/v3/search/stories?archived=false&token=KEY"] ∧
    (InitPy.request cK okHttp "get" [PyObj.str "epics"] []).dispatched.map
        HttpRequest.url =
      ["https://api.clubhouse.io/api/v3/epics?token=KEY"] := by
  refine ⟨?_, rfl, rfl, rfl, rfl⟩
  intro c http m s rest kw
  rw [initRequest_dispatched]
  rfl

/-- Claim C10: the dispatched URL ends with the chosen separator followed by
`token=` and the API key embedded verbatim — no escaping is applied, so
keys holding `&`, `#` or spaces are interpolated unchanged. -/
theorem claim_c10_token_verbatim :
    (∀ (c : Client) (url : String),
        strEndsWith (tokenUrl c url) ("token=" ++ c.api_key) = true) ∧
    (InitPy.request ⟨"a&b #c", []⟩ okHttp "get"
        [PyObj.str "epics"] []).dispatched.map HttpRequest.url =
      ["https://api.clubhouse.io/api/v3/epics?token=a&b #c"] ∧
    (ApiPy.request ⟨"key#&? ", []⟩ okHttp "get" PyObj.null
        [PyObj.str "epics"] []).dispatched.map HttpRequest.url =
      ["https://api.clubhouse.io/api/v3/epics?token=key#&? "] := by
  refine ⟨?_, rfl, rfl⟩
  intro c url
  apply List.isSuffixOf_iff_suffix.mpr
  show (("token=" ++ c.api_key) : String).data <:+
    (url ++ (if urlQuery url = "" then "?" else "&") ++ "token=" ++
      c.api_key).data
  rw [strData_append, strData_append, strData_append, strData_append,
    List.append_assoc]
  exact List.suffix_append _ _

end Clubhouse
